import Mathlib

/-!
Verification development for the in-kind-tracker API: a shallow embedding of
the authorization middleware (src/middleware/authorization.js), the
login/logout/session routes (src/routes/auth.js) and the request identity
middleware (src/server.js), together with theorems settling the frozen
claims about them.

The relational store is modelled as lists of rows (one list per table);
SQL joins are translated join-by-join from the queries in the source.
JavaScript values that matter to the control flow (truthiness, the
Number(...) coercion used by the login validation) are modelled by the
JsValue type.  Store failures are modelled by explicit failure-injection
parameters, mirroring the try/catch structure of the handlers.
-/

/-! ## Executable models of the JavaScript string operations used by the
source (toLowerCase, trim, Number coercion, endsWith).  ASCII semantics,
which is what the permission names, statuses and paths of this API use. -/

/-- One character of String.prototype.toLowerCase (ASCII range). -/
def jsLowerChar (c : Char) : Char :=
  if 'A' ≤ c ∧ c ≤ 'Z' then Char.ofNat (c.toNat + 32) else c

/-- Model of `s.toLowerCase()`. -/
def jsToLower (s : String) : String := String.mk (s.data.map jsLowerChar)

/-- The whitespace characters String.prototype.trim strips. -/
def jsIsSpace (c : Char) : Bool := c == ' ' || c == '\t' || c == '\n' || c == '\r'

/-- Model of `s.trim()`. -/
def jsTrim (s : String) : String :=
  String.mk (((s.data.dropWhile jsIsSpace).reverse.dropWhile jsIsSpace).reverse)

def isDecDigit (c : Char) : Bool := decide ('0' ≤ c ∧ c ≤ '9')

/-- Value of a list of decimal digits. -/
def natOfDigits (cs : List Char) : Nat :=
  cs.foldl (fun a c => a * 10 + (c.toNat - '0'.toNat)) 0

/-- Value of one digit in the given radix (hex letters in both cases),
none for a character outside the radix. -/
def radixDigitVal (radix : Nat) (c : Char) : Option Nat :=
  let v :=
    if '0' ≤ c ∧ c ≤ '9' then some (c.toNat - '0'.toNat)
    else if 'a' ≤ c ∧ c ≤ 'f' then some (c.toNat - 'a'.toNat + 10)
    else if 'A' ≤ c ∧ c ≤ 'F' then some (c.toNat - 'A'.toNat + 10)
    else none
  match v with
  | some d => if d < radix then some d else none
  | none => none

/-- Value of a non-empty all-digit string in the given radix, none
otherwise. -/
def radixToNat (radix : Nat) : List Char → Option Nat
  | [] => none
  | cs => cs.foldl (fun acc c => match acc, radixDigitVal radix c with
      | some n, some d => some (n * radix + d)
      | _, _ => none) (some 0)

/-- Exponent digits (non-empty, all decimal). -/
def parseExpDigits (cs : List Char) : Option Nat :=
  if cs.isEmpty then none
  else if cs.all isDecDigit then some (natOfDigits cs) else none

/-- Exponent part after the e or E: optional sign then digits. -/
def parseExp : List Char → Option Int
  | '+' :: rest => (parseExpDigits rest).map (fun n => (n : Int))
  | '-' :: rest => (parseExpDigits rest).map (fun n => -(n : Int))
  | cs => (parseExpDigits cs).map (fun n => (n : Int))

/-- Unsigned decimal form of a JS numeric string: digits, an optional
decimal point with fraction digits (at least one digit in total), and
an optional exponent.  Returns the mantissa digits as a number, the
fraction length, and the exponent. -/
def parseDecMantissa (cs : List Char) : Option (Nat × Nat × Int) :=
  let ip := cs.takeWhile isDecDigit
  let rest := cs.dropWhile isDecDigit
  match rest with
  | [] => if ip.isEmpty then none else some (natOfDigits ip, 0, 0)
  | '.' :: rest2 =>
    let fp := rest2.takeWhile isDecDigit
    let rest3 := rest2.dropWhile isDecDigit
    if ip.isEmpty && fp.isEmpty then none
    else
      match rest3 with
      | [] => some (natOfDigits (ip ++ fp), fp.length, 0)
      | 'e' :: r => (parseExp r).map (fun e => (natOfDigits (ip ++ fp), fp.length, e))
      | 'E' :: r => (parseExp r).map (fun e => (natOfDigits (ip ++ fp), fp.length, e))
      | _ => none
  | 'e' :: r => if ip.isEmpty then none else (parseExp r).map (fun e => (natOfDigits ip, 0, e))
  | 'E' :: r => if ip.isEmpty then none else (parseExp r).map (fun e => (natOfDigits ip, 0, e))
  | _ => none

/-- Exact value of mantissa × 10 ^ (exponent − fraction length) when it
is an integer, none otherwise. -/
def decToInt (m fracLen : Nat) (e : Int) : Option Nat :=
  if (fracLen : Int) ≤ e then some (m * 10 ^ (e - fracLen).toNat)
  else
    let k := ((fracLen : Int) - e).toNat
    if 10 ^ k ∣ m then some (m / 10 ^ k) else none

/-- Integer value of an unsigned decimal numeric string, when the exact
value is an integer. -/
def decStrToNat (cs : List Char) : Option Nat :=
  parseDecMantissa cs >>= fun p => decToInt p.1 p.2.1 p.2.2

/-- The strings (already trimmed, non-empty) whose JS Number() coercion
is an integer, with that integer: unsigned hex, octal and binary
literals, or an optionally signed decimal literal with optional
fraction and exponent (so "5.0", "5.", "1e2", "100e-2", "0x10", "0o17",
"0b101" all coerce), evaluated exactly.  Infinity and NaN-producing
strings give none, as does any exact non-integer value.  Corner cases
where only IEEE double rounding makes a non-integral exact value
integral are not modelled. -/
def jsStrToInt (s : String) : Option Int :=
  match s.data with
  | '0' :: 'x' :: rest => (radixToNat 16 rest).map (fun n => (n : Int))
  | '0' :: 'X' :: rest => (radixToNat 16 rest).map (fun n => (n : Int))
  | '0' :: 'o' :: rest => (radixToNat 8 rest).map (fun n => (n : Int))
  | '0' :: 'O' :: rest => (radixToNat 8 rest).map (fun n => (n : Int))
  | '0' :: 'b' :: rest => (radixToNat 2 rest).map (fun n => (n : Int))
  | '0' :: 'B' :: rest => (radixToNat 2 rest).map (fun n => (n : Int))
  | '-' :: rest => (decStrToNat rest).map (fun n => -(n : Int))
  | '+' :: rest => (decStrToNat rest).map (fun n => (n : Int))
  | cs => (decStrToNat cs).map (fun n => (n : Int))

/-- Model of `s.endsWith(suffix)`. -/
def strEndsWith (s suffix : String) : Bool := suffix.data.isSuffixOf s.data

/-- Minimal model of the JavaScript values that can arrive as the
request-body field `user_id` (or as a `userId` argument).  JS numbers
are restricted to integers; the only property of non-integer numbers the
code inspects, Number.isInteger, is represented by `toNumberInt`
returning `none`. -/
inductive JsValue where
  | undefined : JsValue
  | null : JsValue
  | bool (b : Bool) : JsValue
  | num (n : Int) : JsValue
  | str (s : String) : JsValue
deriving DecidableEq, Repr

/-- JavaScript truthiness: `!v` in the source is `v.falsy`. -/
def JsValue.falsy : JsValue → Bool
  | .undefined => true
  | .null => true
  | .bool b => !b
  | .num n => n == 0
  | .str s => s == ""

/-- Model of `Number(v)` restricted to integer results: `some n` exactly
when `Number.isInteger(Number(v))` holds in JS, with `n` the coerced
value; `none` models NaN and non-integer results.  Numeric strings
coerce. -/
def JsValue.toNumberInt : JsValue → Option Int
  | .undefined => none
  | .null => some 0
  | .bool b => some (if b then 1 else 0)
  | .num n => some n
  | .str s => if (jsTrim s).data.isEmpty then some 0 else jsStrToInt (jsTrim s)

/-! ## Relational store model (schema in_kind_tracker) -/

/-- Row of in_kind_tracker.user_account (the columns this core reads). -/
structure UserRow where
  user_id : Nat
  username : String
  name : String
  status : String
  role_id : Option Nat
  last_login_at : Option Nat
deriving DecidableEq, Repr

/-- Row of in_kind_tracker.role. -/
structure RoleRow where
  role_id : Nat
  role_name : String
  default_route : Option String
deriving DecidableEq, Repr

/-- Row of in_kind_tracker.permission. -/
structure PermissionRow where
  permission_id : Nat
  permission : String
deriving DecidableEq, Repr

/-- Row of in_kind_tracker.role_permission (many-to-many join table). -/
structure RolePermissionRow where
  role_id : Nat
  permission_id : Nat
deriving DecidableEq, Repr

/-- Row of in_kind_tracker.user_session.  The last_seen_at column is kept
abstract (an optional tick); the INSERT issued at login names only
session_id and user_id, so a fresh row carries `none`. -/
structure SessionRow where
  session_id : String
  user_id : Nat
  last_seen_at : Option Nat
deriving DecidableEq, Repr

/-- The visible store state: one list per table. -/
structure DB where
  user_account : List UserRow
  role : List RoleRow
  permission : List PermissionRow
  role_permission : List RolePermissionRow
  user_session : List SessionRow
deriving DecidableEq, Repr

/-! ## Permission resolver (src/middleware/authorization.js) -/

/-- The join of queryUserPermissions:
SELECT DISTINCT p.permission FROM user_account ua
LEFT JOIN role_permission rp ON rp.role_id = ua.role_id
LEFT JOIN permission p ON p.permission_id = rp.permission_id
WHERE ua.user_id = $1 AND p.permission IS NOT NULL.
The predicate p.permission IS NOT NULL discards exactly the
null-extended rows of the left joins, so the surviving rows are those of
the corresponding inner join; DISTINCT is List.dedup, applied (as in
SQL) before the JS lowercasing. -/
def queryUserPermissions (db : DB) (userId : Int) : List String :=
  (((db.user_account.filter (fun ua => (ua.user_id : Int) == userId)).flatMap (fun ua =>
      (db.role_permission.filter (fun rp => ua.role_id == some rp.role_id)).flatMap (fun rp =>
        (db.permission.filter (fun p => p.permission_id == rp.permission_id)).map
          (fun p => p.permission)))).dedup).map jsToLower

/-- listUserPermissions(userId): the falsy guard returns [] without
touching the store; otherwise one query runs and its rows are
deduplicated (Array.from(new Set(...))).  The second component counts
store queries issued, so that "no query is performed" is expressible.
A non-falsy userId is coerced to an integer as the pg driver would bind
it; values that do not denote an integer match no row. -/
def listUserPermissions (db : DB) (userId : JsValue) : List String × Nat :=
  if userId.falsy then ([], 0)
  else
    match userId.toNumberInt with
    | some n => ((queryUserPermissions db n).dedup, 1)
    | none => ([], 1)

/-! ## Authorization gate (requirePermissions) -/

/-- Outcome of one run of the gate middleware: either next() is reached,
or a response with the given status and error body is sent. -/
inductive GateOutcome where
  | next : GateOutcome
  | denied (status : Nat) (error : String) : GateOutcome
deriving DecidableEq, Repr

def READ_METHODS : List String := ["GET", "HEAD"]

/-- Model of `read ? read.toLowerCase() : null` — a missing or empty
permission name normalizes to null. -/
def normRequired : Option String → Option String
  | none => none
  | some s => if s == "" then none else some (jsToLower s)

/-- Model of `hasPermission(p)`: p is non-null and the resolved set contains it. -/
def hasPermission (perms : List String) : Option String → Bool
  | none => false
  | some p => perms.contains p

/-- requirePermissions({read, manage}) applied to one request.
`user` is req.user (none when no identity is attached); `permQuery` is
the outcome of the permission-set resolution for this request: `.ok`
carries the lowercased rows (getUserPermissions wraps them in a Set —
membership tests below see exactly that set), `.error` carries the
message of a store error, which the catch block turns into a 500. -/
def requirePermissions (read manage : Option String) (method : String)
    (user : Option Nat) (permQuery : Except String (List String)) : GateOutcome :=
  let requiredRead := normRequired read
  let requiredManage := normRequired manage
  if method == "OPTIONS" then .next
  else
    match user with
    | none => .denied 401 "Not authenticated"
    | some _ =>
      match permQuery with
      | .error e => .denied 500 ("Internal server error, " ++ e)
      | .ok perms =>
        if READ_METHODS.contains method then
          if hasPermission perms requiredRead || hasPermission perms requiredManage then
            .next
          else .denied 403 "Forbidden"
        else
          if hasPermission perms requiredManage then .next
          else .denied 403 "Forbidden"

/-! ## Spec-side description of the permission set (for claim C6):
the permission names reachable from a role through the role_permission
association. -/

/-- Modelled from the spec (section 4.1): the permissions joined through
a role — every permission row linked to the role by a role_permission
row.  Used as the reference set the resolver is compared against. -/
def rolePermissionNames (db : DB) : Option Nat → List String
  | none => []
  | some rid =>
    (db.role_permission.filter (fun rp => rp.role_id == rid)).flatMap (fun rp =>
      (db.permission.filter (fun p => p.permission_id == rp.permission_id)).map
        (fun p => p.permission))

/-! ## Session and login routes (src/routes/auth.js) -/

/-- The user record shape produced by normalizeUserRow in
src/routes/userAccount.js: the user columns together with the
role columns of the LEFT JOIN (null when the user has no role), plus the
role / app_role aliases of role_name. -/
structure NormalizedUser where
  user_id : Nat
  role_id : Option Nat
  role_name : Option String
  role : Option String
  app_role : Option String
  default_route : Option String
  username : String
  name : String
  status : String
  last_login_at : Option Nat
deriving DecidableEq, Repr

/-- normalizeUserRow on a joined (user, role) row. -/
def normalizeUserRow (ua : UserRow) (r : Option RoleRow) : NormalizedUser :=
  { user_id := ua.user_id
    role_id := ua.role_id
    role_name := r.map (fun x => x.role_name)
    role := r.map (fun x => x.role_name)
    app_role := r.map (fun x => x.role_name)
    default_route := r.bind (fun x => x.default_route)
    username := ua.username
    name := ua.name
    status := ua.status
    last_login_at := ua.last_login_at }

/-- LEFT JOIN role r ON r.role_id = ua.role_id, for one user row:
at least one output row always survives; the role side is null when the
user has no role or the role id matches no role row. -/
def leftJoinRole (db : DB) (ua : UserRow) : List (UserRow × Option RoleRow) :=
  match ua.role_id with
  | none => [(ua, none)]
  | some rid =>
    match db.role.filter (fun r => r.role_id == rid) with
    | [] => [(ua, none)]
    | rs => rs.map (fun r => (ua, some r))

/-- fetchUserForLogin: SELECT ua.*, r.role_name, r.default_route FROM
user_account ua LEFT JOIN role r ... WHERE ua.user_id = $1 LIMIT 1,
then normalizeUserRow on the row, null when no row. -/
def fetchUserForLogin (db : DB) (userId : Int) : Option NormalizedUser :=
  (((db.user_account.filter (fun ua => (ua.user_id : Int) == userId)).flatMap
      (leftJoinRole db)).head?).map (fun p => normalizeUserRow p.1 p.2)

/-- fetchUserBySession: FROM user_session s JOIN user_account ua ON
ua.user_id = s.user_id LEFT JOIN role r ... WHERE s.session_id = $1
LIMIT 1; the inner join to user_account makes a session whose owner is
gone resolve to no row at all (fail closed). -/
def fetchUserBySession (db : DB) (sessionId : String) : Option NormalizedUser :=
  (((db.user_session.filter (fun s => s.session_id == sessionId)).flatMap (fun s =>
      (db.user_account.filter (fun ua => ua.user_id == s.user_id)).flatMap
        (leftJoinRole db))).head?).map (fun p => normalizeUserRow p.1 p.2)

def USER_STATUSES : List String := ["pending", "active", "inactive"]

/-- Status normalization of the login handler: trim then lowercase
(status is a string column in the model, so the null-coalescing and
String coercions of the source are identity here). -/
def normalizedStatusOf (status : String) : String :=
  jsToLower (jsTrim status)

/-- The store operations of the login transaction at which a failure can
be injected (each models the corresponding await throwing). -/
inductive LoginStep where
  | beginTx
  | fetchUser
  | updateUser
  | insertSession
  | refetchUser
  | commitTx
  | permsQuery
deriving DecidableEq, Repr

/-- The JSON body of the login response: status code, error message (for
non-200 responses), and for 200 the spread user fields plus the
permissions array. -/
structure LoginResponse where
  status : Nat
  error : Option String
  user : Option NormalizedUser
  permissions : Option (List String)
deriving DecidableEq, Repr

/-- Observable outcome of one POST /auth/login request: the response,
the committed store state afterwards, the session cookie value set on
the response (none when no Set-Cookie was issued), whether ROLLBACK was
issued, whether the dedicated connection was released, how many
permission-resolution lookups ran, and the total count of store queries
issued (including the failed attempt, BEGIN/COMMIT/ROLLBACK included). -/
structure LoginResult where
  resp : LoginResponse
  db : DB
  cookie : Option String
  rolledBack : Bool
  released : Bool
  permLookups : Nat
  storeQueries : Nat
deriving DecidableEq, Repr

/-- The catch block of the login handler once a client is held: ROLLBACK
is attempted and the client released before the 500 response; the
transaction-local writes are discarded, so the committed state is the
entry state. -/
def loginCatch (db : DB) (msg : String) (queries : Nat) : LoginResult :=
  { resp := { status := 500, error := some ("Internal server error, " ++ msg),
              user := none, permissions := none }
    db := db
    cookie := none
    rolledBack := true
    released := true
    permLookups := 0
    storeQueries := queries + 1 }

/-- The UPDATE of the login transaction:
SET status = CASE WHEN status = 'pending' THEN 'active' ELSE status END,
    last_login_at = NOW() WHERE user_id = $1. -/
def promoteUser (uid : Nat) (now : Nat) (ua : UserRow) : UserRow :=
  if ua.user_id == uid then
    { ua with status := if ua.status == "pending" then "active" else ua.status
              last_login_at := some now }
  else ua

/-- POST /auth/login.  `user_id` is the user_id field of the request
body (JsValue.undefined when the body or the field is absent);
`sessionId` stands for the randomUUID() generated for this attempt;
`now` for NOW(); `fails` injects a store failure at the given step.
Writes between BEGIN and COMMIT act on a transaction-local copy of the
store that becomes the committed state only at COMMIT. -/
def loginHandler (db : DB) (user_id : JsValue) (sessionId : String) (now : Nat)
    (fails : LoginStep → Bool) : LoginResult :=
  if user_id.falsy then
    { resp := { status := 400, error := some "user_id is required.",
                user := none, permissions := none }
      db := db, cookie := none, rolledBack := false, released := false
      permLookups := 0, storeQueries := 0 }
  else
    match user_id.toNumberInt with
    | none =>
      { resp := { status := 400, error := some "user_id is required.",
                  user := none, permissions := none }
        db := db, cookie := none, rolledBack := false, released := false
        permLookups := 0, storeQueries := 0 }
    | some uid =>
      -- client = await pool.connect(); await client.query('BEGIN')
      if fails .beginTx then loginCatch db "begin failed" 0
      else if fails .fetchUser then loginCatch db "fetch failed" 2
      else
        match fetchUserForLogin db uid with
        | none =>
          -- ROLLBACK, 404, release in the finally block
          { resp := { status := 404, error := some "User not found",
                      user := none, permissions := none }
            db := db, cookie := none, rolledBack := true, released := true
            permLookups := 0, storeQueries := 3 }
        | some user =>
          let ns := normalizedStatusOf user.status
          if !USER_STATUSES.contains ns || ns == "inactive" then
            { resp := { status := 403
                        error := some (if ns == "inactive" then "User account is inactive"
                                       else "User status does not permit login")
                        user := none, permissions := none }
              db := db, cookie := none, rolledBack := true, released := true
              permLookups := 0, storeQueries := 3 }
          else if fails .updateUser then loginCatch db "update failed" 3
          else
            let db1 : DB := { db with user_account := db.user_account.map (promoteUser user.user_id now) }
            if fails .insertSession then loginCatch db "insert failed" 4
            else
              let db2 : DB :=
                { db1 with user_session :=
                    db1.user_session ++ [{ session_id := sessionId, user_id := user.user_id,
                                           last_seen_at := none }] }
              if fails .refetchUser then loginCatch db "refetch failed" 5
              else
                let loggedInUser := fetchUserForLogin db2 (user.user_id : Int)
                if fails .commitTx then loginCatch db "commit failed" 6
                else
                  -- COMMIT makes db2 the committed state; client released;
                  -- cookie set before the permissions lookup
                  if fails .permsQuery then
                    { resp := { status := 500
                                error := some "Internal server error, permissions failed"
                                user := none, permissions := none }
                      db := db2, cookie := some sessionId, rolledBack := false
                      released := true, permLookups := 1, storeQueries := 8 }
                  else
                    { resp := { status := 200, error := none
                                user := some (loggedInUser.getD user)
                                permissions := some (listUserPermissions db2 (.num (user.user_id : Int))).1 }
                      db := db2, cookie := some sessionId, rolledBack := false
                      released := true, permLookups := 1, storeQueries := 8 }

/-- Observable outcome of one POST /auth/logout request. -/
structure LogoutResult where
  status : Nat
  cookieCleared : Bool
  db : DB
deriving DecidableEq, Repr

/-- POST /auth/logout.  `sessionId` is the value extractSessionId reads
from the cookie header (none when the cookie is absent); `deleteFails`
injects a failure of the DELETE query, which the catch block maps to a
500 without clearing the cookie. -/
def logoutHandler (db : DB) (sessionId : Option String) (deleteFails : Bool) : LogoutResult :=
  match sessionId with
  | none => { status := 204, cookieCleared := true, db := db }
  | some sid =>
    if deleteFails then { status := 500, cookieCleared := false, db := db }
    else
      { status := 204, cookieCleared := true
        db := { db with user_session :=
                  db.user_session.filter (fun s => !(s.session_id == sid)) } }

/-! ## Request identity middleware (src/server.js) -/

def AUTH_EXEMPT_PATHS : List String := ["/auth/login", "/auth/logout", "/auth/users", "/health"]

/-- Model of the trailing-slash strip (a replace with the regular
expression matching trailing slashes): drop every trailing slash. -/
def dropTrailingSlashes (s : String) : String :=
  String.mk (s.data.reverse.dropWhile (fun c => c == '/')).reverse

/-- isAuthExemptPath from src/server.js: after trailing-slash
normalization (applied only when the path is longer than one character),
either an exact member of the exempt set or a path whose suffix is an
exempt path preceded by a slash. -/
def isAuthExemptPath (pathname : String) : Bool :=
  if pathname == "" then false
  else
    let normalized := if pathname.length > 1 then dropTrailingSlashes pathname else pathname
    AUTH_EXEMPT_PATHS.contains normalized ||
    AUTH_EXEMPT_PATHS.any (fun exempt =>
      decide (normalized.length > exempt.length) &&
      strEndsWith normalized exempt &&
      ((normalized.data.reverse.drop exempt.length).head? == some '/'))

/-- Observable outcome of the identity middleware on one request:
whether next() was reached, the rejection status if any, whether the
session cookie was cleared, the user attached to the request, and the
session id whose activity timestamp was touched (fire-and-forget). -/
structure MiddlewareResult where
  passed : Bool
  status : Option Nat
  cookieCleared : Bool
  attachedUser : Option NormalizedUser
  touchedSession : Option String
deriving DecidableEq, Repr

/-- The identity middleware (app.use in src/server.js).  `sessionId` is
the value extractSessionId reads from the cookie header. -/
def identityMiddleware (db : DB) (method path : String) (sessionId : Option String) :
    MiddlewareResult :=
  if method == "OPTIONS" || isAuthExemptPath path then
    { passed := true, status := none, cookieCleared := false
      attachedUser := none, touchedSession := none }
  else
    match sessionId with
    | none =>
      { passed := false, status := some 401, cookieCleared := true
        attachedUser := none, touchedSession := none }
    | some sid =>
      match fetchUserBySession db sid with
      | none =>
        { passed := false, status := some 401, cookieCleared := true
          attachedUser := none, touchedSession := none }
      | some user =>
        { passed := true, status := none, cookieCleared := false
          attachedUser := some user, touchedSession := some sid }

/-! ## Sample store states used by the witnesses -/

def emptyDB : DB :=
  { user_account := [], role := [], permission := [], role_permission := [], user_session := [] }

def samplePendingUser : UserRow :=
  { user_id := 1, username := "a@b.c", name := "A", status := "pending",
    role_id := none, last_login_at := none }

def sampleInactiveUser : UserRow :=
  { user_id := 2, username := "c@d.e", name := "C", status := "inactive",
    role_id := some 9, last_login_at := none }

def sampleDB : DB :=
  { user_account := [samplePendingUser, sampleInactiveUser]
    role := [{ role_id := 9, role_name := "admin", default_route := some "/home" }]
    permission := [{ permission_id := 1, permission := "Manage Users" }]
    role_permission := [{ role_id := 9, permission_id := 1 }]
    user_session := [{ session_id := "live", user_id := 2, last_seen_at := none }] }

/-! ## Theorems -/

/-- Reduction of the gate on an authenticated non-OPTIONS request with a
successful permission lookup. -/
theorem requirePermissions_auth_ok (read manage method : String) (u : Nat)
    (perms : List String) (hne : method ≠ "OPTIONS") :
    requirePermissions (some read) (some manage) method (some u) (.ok perms)
      = (if READ_METHODS.contains method then
           if hasPermission perms (normRequired (some read))
              || hasPermission perms (normRequired (some manage)) then GateOutcome.next
           else .denied 403 "Forbidden"
         else if hasPermission perms (normRequired (some manage)) then .next
           else .denied 403 "Forbidden") := by
  simp [requirePermissions, hne]

/-- C1: for a gate built from a {read, manage} permission pair, OPTIONS
passes unconditionally; a non-OPTIONS request with no identity is
answered 401; for an authenticated caller whose permission resolution
succeeded, GET/HEAD is allowed exactly when the resolved set contains
the (normalized) read or manage permission, any other method exactly
when it contains the manage permission, and every remaining case is
answered 403 Forbidden. -/
theorem authorization_gate_method_matrix (read manage method : String)
    (perms : List String) (u : Nat) (hr : read ≠ "") (hm : manage ≠ "") :
    (∀ (user : Option Nat) (q : Except String (List String)),
        requirePermissions (some read) (some manage) "OPTIONS" user q = .next)
    ∧ (∀ q : Except String (List String), method ≠ "OPTIONS" →
        requirePermissions (some read) (some manage) method none q
          = .denied 401 "Not authenticated")
    ∧ (method ∈ READ_METHODS →
        (requirePermissions (some read) (some manage) method (some u) (.ok perms) = .next
          ↔ (jsToLower read ∈ perms ∨ jsToLower manage ∈ perms)))
    ∧ (method ≠ "OPTIONS" → method ∉ READ_METHODS →
        (requirePermissions (some read) (some manage) method (some u) (.ok perms) = .next
          ↔ jsToLower manage ∈ perms))
    ∧ (method ≠ "OPTIONS" →
        (requirePermissions (some read) (some manage) method (some u) (.ok perms) = .next
         ∨ requirePermissions (some read) (some manage) method (some u) (.ok perms)
             = .denied 403 "Forbidden")) := by
  have hro : normRequired (some read) = some (jsToLower read) := by
    simp [normRequired, hr]
  have hmo : normRequired (some manage) = some (jsToLower manage) := by
    simp [normRequired, hm]
  refine ⟨?_, ?_, ?_, ?_, ?_⟩
  · intro user q
    simp [requirePermissions]
  · intro q hne
    simp [requirePermissions, hne]
  · intro hmem
    have hne : method ≠ "OPTIONS" := by
      simp [READ_METHODS] at hmem
      rcases hmem with rfl | rfl <;> decide
    have hcont : READ_METHODS.contains method = true := by
      simpa using hmem
    rw [requirePermissions_auth_ok read manage method u perms hne, if_pos hcont, hro, hmo]
    by_cases h1 : jsToLower read ∈ perms <;> by_cases h2 : jsToLower manage ∈ perms <;>
      simp [hasPermission, h1, h2]
  · intro hne hnotread
    have hcont : ¬ (READ_METHODS.contains method = true) := by
      simpa using hnotread
    rw [requirePermissions_auth_ok read manage method u perms hne, if_neg hcont, hmo]
    by_cases h2 : jsToLower manage ∈ perms <;> simp [hasPermission, h2]
  · intro hne
    rw [requirePermissions_auth_ok read manage method u perms hne]
    split
    · split
      · exact Or.inl rfl
      · exact Or.inr rfl
    · split
      · exact Or.inl rfl
      · exact Or.inr rfl

theorem authorization_gate_method_matrix_witness :
    requirePermissions (some "view locations") (some "manage locations") "GET" (some 7)
      (.ok ["manage locations"]) = .next := by
  have h := authorization_gate_method_matrix "view locations" "manage locations" "GET"
    ["manage locations"] 7 (by decide) (by decide)
  exact (h.2.2.1 (by decide)).mpr (Or.inr (by decide))

/-- C9: when the permission lookup of an authenticated non-OPTIONS
request raises a store error, the gate answers 500 with the error
message appended, and in particular never 403. -/
theorem gate_lookup_failure_500 (read manage : Option String) (method : String)
    (u : Nat) (e : String) (hne : method ≠ "OPTIONS") :
    requirePermissions read manage method (some u) (.error e)
      = .denied 500 ("Internal server error, " ++ e)
    ∧ ∀ m : String, requirePermissions read manage method (some u) (.error e)
        ≠ .denied 403 m := by
  constructor
  · simp [requirePermissions, hne]
  · intro m
    simp [requirePermissions, hne]

theorem gate_lookup_failure_500_witness :
    requirePermissions (some "view users") (some "manage users") "GET" (some 3)
      (.error "connection refused")
      = .denied 500 ("Internal server error, " ++ "connection refused") :=
  (gate_lookup_failure_500 (some "view users") (some "manage users") "GET" 3
    "connection refused" (by decide)).1

/-- C10: every falsy userId (undefined, null, 0, empty string) makes
listUserPermissions return the empty array with zero store queries. -/
theorem listUserPermissions_falsy_no_query (db : DB) :
    listUserPermissions db .undefined = ([], 0)
    ∧ listUserPermissions db .null = ([], 0)
    ∧ listUserPermissions db (.num 0) = ([], 0)
    ∧ listUserPermissions db (.str "") = ([], 0) :=
  ⟨rfl, rfl, rfl, rfl⟩

/-- With a unique matching user row, the resolver join equals the
role-reachable permission list, deduplicated then lowercased. -/
theorem queryUserPermissions_eq_reachable (db : DB) (uid : Nat) (u : UserRow)
    (hfilter : db.user_account.filter (fun ua => (ua.user_id : Int) == (uid : Int)) = [u]) :
    queryUserPermissions db uid = ((rolePermissionNames db u.role_id).dedup).map jsToLower := by
  unfold queryUserPermissions
  rw [hfilter]
  simp only [List.flatMap_cons, List.flatMap_nil, List.append_nil]
  congr 2
  cases hrole : u.role_id with
  | none =>
    simp [rolePermissionNames]
  | some rid =>
    simp only [rolePermissionNames]
    congr 1
    apply List.filter_congr
    intro rp _
    rw [BEq.comm]
    by_cases h : rp.role_id = rid <;> simp [h]

/-- C6: for every user (unique row for a positive id), the resolved
permission list is duplicate-free and has exactly the lowercased
permission names reachable from the role of the user through the
role_permission association; with no role assigned it is empty. -/
theorem resolver_matches_role_permissions (db : DB) (uid : Nat) (u : UserRow)
    (hpos : 0 < uid)
    (hfilter : db.user_account.filter (fun ua => (ua.user_id : Int) == (uid : Int)) = [u]) :
    ((listUserPermissions db (.num uid)).1).Nodup
    ∧ (∀ x, x ∈ (listUserPermissions db (.num uid)).1
        ↔ x ∈ (rolePermissionNames db u.role_id).map jsToLower)
    ∧ (u.role_id = none → (listUserPermissions db (.num uid)).1 = []) := by
  have hfalsy : (JsValue.num (uid : Int)).falsy = false := by
    simp [JsValue.falsy]
    omega
  have hlist : (listUserPermissions db (.num uid)).1 = (queryUserPermissions db uid).dedup := by
    simp [listUserPermissions, hfalsy, JsValue.toNumberInt]
  rw [hlist, queryUserPermissions_eq_reachable db uid u hfilter]
  refine ⟨List.nodup_dedup _, ?_, ?_⟩
  · intro x
    simp [List.mem_dedup, List.mem_map]
  · intro hnone
    rw [hnone]
    simp [rolePermissionNames]

theorem resolver_matches_role_permissions_witness :
    "manage users" ∈ (listUserPermissions sampleDB (.num 2)).1
      ↔ "manage users" ∈ (rolePermissionNames sampleDB sampleInactiveUser.role_id).map jsToLower :=
  (resolver_matches_role_permissions sampleDB 2 sampleInactiveUser (by decide)
    (by decide)).2.1 "manage users"

/-- C8: logout (with the store available) always answers 204 and always
clears the session cookie, with or without a valid session, and a
second logout with the same cookie answers 204 again and leaves the
store state of the first call unchanged. -/
theorem logout_always_204_idempotent (db : DB) (sessionId : Option String) :
    (logoutHandler db sessionId false).status = 204
    ∧ (logoutHandler db sessionId false).cookieCleared = true
    ∧ (logoutHandler (logoutHandler db sessionId false).db sessionId false).status = 204
    ∧ (logoutHandler (logoutHandler db sessionId false).db sessionId false).cookieCleared = true
    ∧ (logoutHandler (logoutHandler db sessionId false).db sessionId false).db
        = (logoutHandler db sessionId false).db := by
  cases sessionId with
  | none => exact ⟨rfl, rfl, rfl, rfl, rfl⟩
  | some sid =>
    refine ⟨rfl, rfl, rfl, rfl, ?_⟩
    simp [logoutHandler, List.filter_filter, Bool.and_self]

/-- C7: a session id with no session row, or whose owning user is gone,
resolves to none; and on a non-exempt non-OPTIONS path the identity
middleware answers such a request 401, clears the cookie and attaches
no user. -/
theorem session_resolution_fails_closed (db : DB) (sid : String) (method path : String)
    (sessionId : Option String) :
    (db.user_session.filter (fun s => s.session_id == sid) = [] →
        fetchUserBySession db sid = none)
    ∧ ((∀ s ∈ db.user_session, s.session_id = sid →
          db.user_account.filter (fun ua => ua.user_id == s.user_id) = []) →
        fetchUserBySession db sid = none)
    ∧ (method ≠ "OPTIONS" → isAuthExemptPath path = false →
        (sessionId = none ∨ ∃ x, sessionId = some x ∧ fetchUserBySession db x = none) →
        identityMiddleware db method path sessionId
          = { passed := false, status := some 401, cookieCleared := true,
              attachedUser := none, touchedSession := none }) := by
  refine ⟨?_, ?_, ?_⟩
  · intro h
    simp [fetchUserBySession, h]
  · intro h
    unfold fetchUserBySession
    have hnil : (db.user_session.filter (fun s => s.session_id == sid)).flatMap
        (fun s => (db.user_account.filter (fun ua => ua.user_id == s.user_id)).flatMap
          (leftJoinRole db)) = [] := by
      rw [List.flatMap_eq_nil_iff]
      intro s hs
      rw [List.mem_filter] at hs
      have hsid : s.session_id = sid := by simpa using hs.2
      rw [h s hs.1 hsid]
      rfl
    rw [hnil]
    rfl
  · intro hne hexempt hbad
    rcases hbad with rfl | ⟨x, rfl, hfetch⟩
    · simp [identityMiddleware, hne, hexempt]
    · simp [identityMiddleware, hne, hexempt, hfetch]

theorem session_resolution_fails_closed_witness :
    fetchUserBySession emptyDB "ghost" = none
    ∧ identityMiddleware emptyDB "GET" "/location" (some "ghost")
        = { passed := false, status := some 401, cookieCleared := true,
            attachedUser := none, touchedSession := none } := by
  have h := session_resolution_fails_closed emptyDB "ghost" "GET" "/location" (some "ghost")
  exact ⟨h.1 rfl, h.2.2 (by decide) (by decide) (Or.inr ⟨"ghost", rfl, h.1 rfl⟩)⟩

/-- Behaviour samples of the Number() coercion model: fraction,
exponent and radix string forms coerce to integers, so such bodies pass
the login validation and reach the store (404 on the empty store),
while exact non-integers and non-numeric strings fail validation with
400 and no query. -/
theorem toNumberInt_coercion_samples :
    JsValue.toNumberInt (.str "5.0") = some 5
    ∧ JsValue.toNumberInt (.str "5.") = some 5
    ∧ JsValue.toNumberInt (.str "1e2") = some 100
    ∧ JsValue.toNumberInt (.str "0x10") = some 16
    ∧ JsValue.toNumberInt (.str "100e-2") = some 1
    ∧ JsValue.toNumberInt (.str "5.5") = none
    ∧ JsValue.toNumberInt (.str "abc") = none
    ∧ (loginHandler emptyDB (.str "5.0") "sid" 0 (fun _ => false)).resp.status = 404
    ∧ (loginHandler emptyDB (.str "5.0") "sid" 0 (fun _ => false)).storeQueries = 3
    ∧ (loginHandler emptyDB (.str "5.5") "sid" 0 (fun _ => false)).resp.status = 400
    ∧ (loginHandler emptyDB (.str "5.5") "sid" 0 (fun _ => false)).storeQueries = 0 := by
  decide

/-- C4 (amended): a login request whose body user_id is falsy (missing,
null, 0, empty string) or whose Number coercion is not an integer is
answered 400 {"error":"user_id is required."} with no store query and
no state change.  (Negative integers pass this validation; see the
counterexample.) -/
theorem login_validation_400 (db : DB) (v : JsValue) (sid : String) (now : Nat)
    (fails : LoginStep → Bool) (h : v.falsy = true ∨ v.toNumberInt = none) :
    (loginHandler db v sid now fails).resp.status = 400
    ∧ (loginHandler db v sid now fails).resp.error = some "user_id is required."
    ∧ (loginHandler db v sid now fails).storeQueries = 0
    ∧ (loginHandler db v sid now fails).db = db := by
  rcases h with h | h
  · simp [loginHandler, h]
  · cases hv : v.falsy
    · simp [loginHandler, hv, h]
    · simp [loginHandler, hv]

theorem login_validation_400_witness :
    (loginHandler emptyDB .null "sid" 0 (fun _ => false)).resp.status = 400 :=
  (login_validation_400 emptyDB .null "sid" 0 (fun _ => false) (Or.inl rfl)).1

/-- C4, counterexample to the claim as stated: user_id = -1 is not a
positive integer, yet the handler does not answer 400 and does query
the store: truthiness plus Number.isInteger let negative integers
through to the user fetch, which answers 404. -/
theorem login_validation_counterexample :
    (∀ n : Int, 0 < n → JsValue.num (-1) ≠ JsValue.num n)
    ∧ (loginHandler emptyDB (.num (-1)) "sid" 0 (fun _ => false)).resp.status = 404
    ∧ ¬ ((loginHandler emptyDB (.num (-1)) "sid" 0 (fun _ => false)).resp.status = 400)
    ∧ (loginHandler emptyDB (.num (-1)) "sid" 0 (fun _ => false)).storeQueries = 3 := by
  refine ⟨?_, by decide, by decide, by decide⟩
  intro n hn heq
  injection heq with h2
  omega

/-- C2: once BEGIN has succeeded, a store failure at any step strictly
between BEGIN and COMMIT (user fetch, status update, session insert,
user refetch) leaves the committed state untouched, with ROLLBACK
issued and the dedicated connection released, and the response is not
the 200 success; in particular an unknown user_id is answered
404 {"error":"User not found"} with no session row created. -/
theorem login_transaction_atomic (db : DB) (v : JsValue) (uid : Int) (sid : String)
    (now : Nat) (fails : LoginStep → Bool)
    (hv : v.falsy = false) (hn : v.toNumberInt = some uid)
    (hb : fails .beginTx = false)
    (hmid : fails .fetchUser = true ∨ fails .updateUser = true
      ∨ fails .insertSession = true ∨ fails .refetchUser = true) :
    ((loginHandler db v sid now fails).db = db
      ∧ (loginHandler db v sid now fails).rolledBack = true
      ∧ (loginHandler db v sid now fails).released = true
      ∧ (loginHandler db v sid now fails).resp.status ≠ 200
      ∧ (loginHandler db v sid now fails).cookie = none)
    ∧ (fetchUserForLogin db uid = none →
        (loginHandler db v sid now (fun _ => false)).resp.status = 404
        ∧ (loginHandler db v sid now (fun _ => false)).resp.error = some "User not found"
        ∧ (loginHandler db v sid now (fun _ => false)).db = db
        ∧ (loginHandler db v sid now (fun _ => false)).rolledBack = true
        ∧ (loginHandler db v sid now (fun _ => false)).released = true) := by
  constructor
  · cases hf1 : fails LoginStep.fetchUser with
    | true => simp [loginHandler, hv, hn, hb, hf1, loginCatch]
    | false =>
      cases hfetch : fetchUserForLogin db uid with
      | none => simp [loginHandler, hv, hn, hb, hf1, hfetch]
      | some user =>
        cases hf2 : fails LoginStep.updateUser with
        | true =>
          simp [loginHandler, hv, hn, hb, hf1, hfetch, hf2, loginCatch]
          split_ifs <;> simp
        | false =>
          cases hf3 : fails LoginStep.insertSession with
          | true =>
            simp [loginHandler, hv, hn, hb, hf1, hfetch, hf2, hf3, loginCatch]
            split_ifs <;> simp
          | false =>
            cases hf4 : fails LoginStep.refetchUser with
            | true =>
              simp [loginHandler, hv, hn, hb, hf1, hfetch, hf2, hf3, hf4, loginCatch]
              split_ifs <;> simp
            | false => rcases hmid with h | h | h | h <;> simp_all
  · intro hfetch
    simp [loginHandler, hv, hn, hfetch]

theorem login_transaction_atomic_witness :
    ((loginHandler emptyDB (.num 1) "sid" 0 (fun t => t == LoginStep.fetchUser)).db = emptyDB
      ∧ (loginHandler emptyDB (.num 1) "sid" 0 (fun t => t == LoginStep.fetchUser)).rolledBack
          = true)
    ∧ ((loginHandler emptyDB (.num 1) "sid" 0 (fun _ => false)).resp.status = 404
      ∧ (loginHandler emptyDB (.num 1) "sid" 0 (fun _ => false)).db = emptyDB) := by
  have h := login_transaction_atomic emptyDB (.num 1) 1 "sid" 0
    (fun t => t == LoginStep.fetchUser) rfl rfl rfl (Or.inl rfl)
  have h2 := h.2 (by decide)
  exact ⟨⟨h.1.1, h.1.2.1⟩, ⟨h2.1, h2.2.2.1⟩⟩

/-- When the user filter yields a single row, the login fetch returns
that row normalized (with some role side of the left join). -/
theorem fetchUserForLogin_of_filter (db : DB) (uid : Int) (u : UserRow)
    (hfilter : db.user_account.filter (fun ua => (ua.user_id : Int) == uid) = [u]) :
    ∃ r, fetchUserForLogin db uid = some (normalizeUserRow u r) := by
  unfold fetchUserForLogin
  rw [hfilter]
  simp only [List.flatMap_cons, List.flatMap_nil, List.append_nil]
  unfold leftJoinRole
  cases hrole : u.role_id with
  | none => exact ⟨none, rfl⟩
  | some rid =>
    dsimp only
    cases hr : db.role.filter (fun r => r.role_id == rid) with
    | nil => exact ⟨none, rfl⟩
    | cons r rs => exact ⟨some r, by simp⟩

/-- The single row matching the user-id filter has that user id. -/
theorem filter_singleton_user_id (db : DB) (uid : Nat) (u : UserRow)
    (hfilter : db.user_account.filter (fun ua => (ua.user_id : Int) == (uid : Int)) = [u]) :
    u.user_id = uid := by
  have hu : u ∈ db.user_account.filter (fun ua => (ua.user_id : Int) == (uid : Int)) := by
    rw [hfilter]
    exact List.mem_singleton.mpr rfl
  rw [List.mem_filter] at hu
  have h2 : (u.user_id : Int) = (uid : Int) := by simpa using hu.2
  exact_mod_cast h2

/-- Any stored row carrying the same user id as the single filtered row
is that row. -/
theorem filter_singleton_unique (db : DB) (uid : Nat) (u : UserRow)
    (hfilter : db.user_account.filter (fun ua => (ua.user_id : Int) == (uid : Int)) = [u])
    (row : UserRow) (hrow : row ∈ db.user_account) (heq : row.user_id = u.user_id) :
    row = u := by
  have huid := filter_singleton_user_id db uid u hfilter
  have hmem : row ∈ db.user_account.filter (fun ua => (ua.user_id : Int) == (uid : Int)) := by
    rw [List.mem_filter]
    refine ⟨hrow, ?_⟩
    simp [heq, huid]
  rw [hfilter] at hmem
  simpa using hmem

/-- C3: login for an existing pending user (unique row for its id)
succeeds: 200 response carrying user fields and a permissions array,
status promoted to active with last_login_at stamped, exactly one new
session row keyed by the generated session id, and the session cookie
set to that id. -/
theorem login_pending_success (db : DB) (uid : Nat) (u : UserRow) (sid : String) (now : Nat)
    (hpos : 0 < uid)
    (hfilter : db.user_account.filter (fun ua => (ua.user_id : Int) == (uid : Int)) = [u])
    (hstatus : u.status = "pending") :
    (loginHandler db (.num uid) sid now (fun _ => false)).resp.status = 200
    ∧ (loginHandler db (.num uid) sid now (fun _ => false)).db.user_account
        = db.user_account.map (fun row =>
            if row.user_id == u.user_id then
              { row with status := "active", last_login_at := some now }
            else row)
    ∧ (loginHandler db (.num uid) sid now (fun _ => false)).db.user_session
        = db.user_session
          ++ [{ session_id := sid, user_id := u.user_id, last_seen_at := none }]
    ∧ (loginHandler db (.num uid) sid now (fun _ => false)).cookie = some sid
    ∧ ((loginHandler db (.num uid) sid now (fun _ => false)).resp.user).isSome = true
    ∧ ((loginHandler db (.num uid) sid now (fun _ => false)).resp.permissions).isSome
        = true := by
  have hfalsy : (JsValue.num (uid : Int)).falsy = false := by
    simp [JsValue.falsy]
    omega
  obtain ⟨r, hfetch⟩ := fetchUserForLogin_of_filter db (uid : Int) u hfilter
  have hns : normalizedStatusOf (normalizeUserRow u r).status = "pending" := by
    simp only [normalizeUserRow, hstatus]
    decide
  have huid : (normalizeUserRow u r).user_id = u.user_id := rfl
  refine ⟨?_, ?_, ?_, ?_, ?_, ?_⟩
  · simp [loginHandler, hfalsy, JsValue.toNumberInt, hfetch, hns, USER_STATUSES]
  · have hred : (loginHandler db (.num uid) sid now (fun _ => false)).db.user_account
        = db.user_account.map (promoteUser u.user_id now) := by
      simp [loginHandler, hfalsy, JsValue.toNumberInt, hfetch, hns, USER_STATUSES, huid]
    rw [hred]
    apply List.map_congr_left
    intro row hrow
    unfold promoteUser
    cases hbeq : (row.user_id == u.user_id) with
    | false => simp [hbeq]
    | true =>
      have heq : row.user_id = u.user_id := by simpa using hbeq
      have hre : row = u := filter_singleton_unique db uid u hfilter row hrow heq
      subst hre
      simp [hstatus]
  · simp [loginHandler, hfalsy, JsValue.toNumberInt, hfetch, hns, USER_STATUSES, huid]
  · simp [loginHandler, hfalsy, JsValue.toNumberInt, hfetch, hns, USER_STATUSES]
  · simp [loginHandler, hfalsy, JsValue.toNumberInt, hfetch, hns, USER_STATUSES]
  · simp [loginHandler, hfalsy, JsValue.toNumberInt, hfetch, hns, USER_STATUSES]

theorem login_pending_success_witness :
    (loginHandler sampleDB (.num 1) "fresh-session" 5 (fun _ => false)).resp.status = 200
    ∧ (loginHandler sampleDB (.num 1) "fresh-session" 5 (fun _ => false)).db.user_session
        = sampleDB.user_session
          ++ [{ session_id := "fresh-session", user_id := 1, last_seen_at := none }] := by
  have h := login_pending_success sampleDB 1 samplePendingUser "fresh-session" 5
    (by decide) (by decide) rfl
  exact ⟨h.1, h.2.2.1⟩

/-- C5: login for an existing user whose normalized status is inactive
is answered 403 {"error":"User account is inactive"} with the
transaction rolled back, no state change and no permissions lookup; an
existing user with a status outside {pending, active, inactive} is
likewise answered 403 with rollback and no permissions lookup. -/
theorem login_inactive_403 (db : DB) (v : JsValue) (uid : Int) (sid : String) (now : Nat)
    (nu : NormalizedUser)
    (hv : v.falsy = false) (hn : v.toNumberInt = some uid)
    (hfetch : fetchUserForLogin db uid = some nu) :
    (normalizedStatusOf nu.status = "inactive" →
      (loginHandler db v sid now (fun _ => false)).resp.status = 403
      ∧ (loginHandler db v sid now (fun _ => false)).resp.error
          = some "User account is inactive"
      ∧ (loginHandler db v sid now (fun _ => false)).rolledBack = true
      ∧ (loginHandler db v sid now (fun _ => false)).db = db
      ∧ (loginHandler db v sid now (fun _ => false)).permLookups = 0)
    ∧ (USER_STATUSES.contains (normalizedStatusOf nu.status) = false →
      (loginHandler db v sid now (fun _ => false)).resp.status = 403
      ∧ (loginHandler db v sid now (fun _ => false)).rolledBack = true
      ∧ (loginHandler db v sid now (fun _ => false)).db = db
      ∧ (loginHandler db v sid now (fun _ => false)).permLookups = 0) := by
  constructor
  · intro hin
    simp [loginHandler, hv, hn, hfetch, hin, USER_STATUSES]
  · intro hnc
    have hnotmem : ¬ (normalizedStatusOf nu.status ∈ USER_STATUSES) := by
      simpa using hnc
    simp [loginHandler, hv, hn, hfetch, hnotmem]

theorem login_inactive_403_witness :
    (loginHandler sampleDB (.num 2) "sid" 0 (fun _ => false)).resp.status = 403
    ∧ (loginHandler sampleDB (.num 2) "sid" 0 (fun _ => false)).resp.error
        = some "User account is inactive" := by
  have h := login_inactive_403 sampleDB (.num 2) 2 "sid" 0
    { user_id := 2, role_id := some 9, role_name := some "admin", role := some "admin",
      app_role := some "admin", default_route := some "/home", username := "c@d.e",
      name := "C", status := "inactive", last_login_at := none }
    rfl rfl (by decide)
  have h2 := h.1 (by decide)
  exact ⟨h2.1, h2.2.1⟩
